import Mathlib

/-!
Verification of the I2C bus driver `modules/i2c/i2c.c` (STM32F401RE target,
production build: `ENABLE_FAULT_INJECTION` is not defined outside Debug).

The driver is embedded shallowly: the per-instance software state
`struct i2c_state` becomes a Lean structure, every hardware register access
performed by the driver is recorded as an explicit `HwAction`, and each C
function becomes a pure Lean function from the old state to the new state
plus the list of hardware actions it performs, in program order.

On this target the LL header defines `I2C_SR1_*` flags as distinct bits of
the 16-bit SR1 register; the driver only ever tests and clears individual
flags, so SR1 is modelled as a record of booleans.  `I2C_ISR_TIMEOUT` and
`I2C_ISR_PECERR` are not defined for the F4 family, so
`INTERRUPT_ERR_MASK = BERR | ARLO | AF | OVR`.

Machine-integer remarks: `msg_len`, `msg_bytes_xferred` are `uint32_t`.
The only arithmetic on them is `msg_bytes_xferred++` (which never exceeds
`max msg_len 1`, proved below, so it cannot wrap for any `uint32_t` length)
and `msg_len - 1`, which is evaluated only under the guard
`msg_bytes_xferred < msg_len`, hence `msg_len >= 1` and `Nat` subtraction
agrees with the C unsigned subtraction there.  `dest_addr` is a `uint16_t`
field assigned from a `uint32_t` argument, so the assignment truncates.
-/

set_option maxHeartbeats 1000000

namespace I2CDriver

/-- Module error codes from `i2c.h`. -/
def MOD_ERR_ARG : Int := -1

def MOD_ERR_RESOURCE : Int := -2

def MOD_ERR_STATE : Int := -3

def MOD_ERR_BAD_CMD : Int := -4

def MOD_ERR_BAD_INSTANCE : Int := -6

def MOD_ERR_PERIPH : Int := -7

def MOD_ERR_NOT_RESERVED : Int := -8

def MOD_ERR_OP_IN_PROG : Int := -9

/-- `enum i2c_errors` from `i2c.h`. -/
inductive i2c_errors
  | I2C_ERR_NONE
  | I2C_ERR_INVALID_INSTANCE
  | I2C_ERR_BUS_BUSY
  | I2C_ERR_GUARD_TMR
  | I2C_ERR_PEC
  | I2C_ERR_TIMEOUT
  | I2C_ERR_ACK_FAIL
  | I2C_ERR_BUS_ERR
  | I2C_ERR_INTR_UNEXPECT
  deriving DecidableEq, Repr

/-- `enum states` from `i2c.c`. -/
inductive states
  | STATE_IDLE
  | STATE_MSTR_WR_GEN_START
  | STATE_MSTR_WR_SENDING_ADDR
  | STATE_MSTR_WR_SENDING_DATA
  | STATE_MSTR_RD_GEN_START
  | STATE_MSTR_RD_SENDING_ADDR
  | STATE_MSTR_RD_READING_DATA
  deriving DecidableEq, Repr

/-- `enum interrupt_type` from `i2c.c`. -/
inductive interrupt_type
  | INTER_TYPE_EVT
  | INTER_TYPE_ERR
  deriving DecidableEq, Repr

/-- The SR1 status register value read once at the top of `i2c_interrupt`,
as the set of flags the driver tests (`I2C_SR1_*` bits are distinct). -/
structure SR1 where
  sb : Bool
  addr : Bool
  btf : Bool
  txe : Bool
  rxne : Bool
  berr : Bool
  arlo : Bool
  af : Bool
  ovr : Bool
  timeout : Bool
  pecerr : Bool
  deriving DecidableEq, Repr

/-- Argument of `LL_I2C_AcknowledgeNextData`. -/
inductive AckMode
  | ACK
  | NACK
  deriving DecidableEq, Repr

/-- Observable hardware and guard-timer effects performed by the driver,
in program order.  `clearErrFlags b a f o` records the write
`SR1 &= ~(sr1 & INTERRUPT_ERR_MASK)`: the flags among BERR, ARLO, AF, OVR
that are cleared (those currently set in the `sr1` value read). -/
inductive HwAction
  | disableAllInterrupts
  | enableAllInterrupts
  | enablePeriph
  | disablePeriph
  | generateStart
  | generateStop
  | writeDR (v : Nat)
  | readSR2
  | readDR
  | setAck (m : AckMode)
  | clearErrFlags (berr arlo af ovr : Bool)
  | tmrStart (ms : Nat)
  deriving DecidableEq, Repr

/-- Software fields of `struct i2c_state`.  The caller's message buffer is
modelled by its contents `msg_bfr : Nat → Nat` (byte at each index); a read
transaction updates it in place, as the C driver writes through the caller's
pointer. -/
structure i2c_state where
  cfg_guard_time_ms : Nat
  guard_tmr_id : Int
  msg_bfr : Nat → Nat
  msg_len : Nat
  msg_bytes_xferred : Nat
  dest_addr : Nat
  reserved : Bool
  state : states
  last_op_error : i2c_errors

/-- Number of instances (`I2C_NUM_INSTANCES = 1`, only `I2C_INSTANCE_3`). -/
def I2C_NUM_INSTANCES : Nat := 1

/-- The static per-instance state array `i2c_states`. -/
def InstArray : Type := Fin I2C_NUM_INSTANCES → i2c_state

/-- `op_stop_fail`: failure cleanup.  Disables interrupts, always issues a
stop condition, disables the peripheral, disarms the guard timer when one
was allocated, then records the error (unconditionally) and returns to
`STATE_IDLE`. -/
def op_stop_fail (st : i2c_state) (error : i2c_errors) :
    i2c_state × List HwAction :=
  ({ st with last_op_error := error, state := states.STATE_IDLE },
   [HwAction.disableAllInterrupts, HwAction.generateStop,
    HwAction.disablePeriph] ++
     (if st.guard_tmr_id ≥ 0 then [HwAction.tmrStart 0] else []))

/-- Error classification in the `INTER_TYPE_ERR` branch of `i2c_interrupt`:
acknowledge failure, then bus error, else unexpected interrupt. -/
def classify_error (sr1 : SR1) : i2c_errors :=
  if sr1.af then i2c_errors.I2C_ERR_ACK_FAIL
  else if sr1.berr then i2c_errors.I2C_ERR_BUS_ERR
  else i2c_errors.I2C_ERR_INTR_UNEXPECT

/-- Modelled from the spec (for comparison only, not from the source):
classification "in the fixed priority order acknowledge-failure >
bus-error > protocol-timeout > packet-error-code > else
unexpected-interrupt" (spec section 4.5). -/
def classify_error_spec (sr1 : SR1) : i2c_errors :=
  if sr1.af then i2c_errors.I2C_ERR_ACK_FAIL
  else if sr1.berr then i2c_errors.I2C_ERR_BUS_ERR
  else if sr1.timeout then i2c_errors.I2C_ERR_TIMEOUT
  else if sr1.pecerr then i2c_errors.I2C_ERR_PEC
  else i2c_errors.I2C_ERR_INTR_UNEXPECT

/-- `i2c_interrupt`: the interrupt handler.  `sr1` is the status value read
once at entry; `dr` is the value the data register would deliver when the
handler reads it (read path).  Returns the new software state and the
hardware actions in program order. -/
def i2c_interrupt (inter_type : interrupt_type) (sr1 : SR1) (dr : Nat)
    (st : i2c_state) : i2c_state × List HwAction :=
  match inter_type with
  | interrupt_type.INTER_TYPE_EVT =>
    match st.state with
    | states.STATE_MSTR_WR_GEN_START =>
      if sr1.sb then
        ({ st with state := states.STATE_MSTR_WR_SENDING_ADDR },
         [HwAction.writeDR (st.dest_addr * 2)])
      else (st, [])
    | states.STATE_MSTR_WR_SENDING_ADDR =>
      if sr1.addr then
        ({ st with state := states.STATE_MSTR_WR_SENDING_DATA,
                   msg_bytes_xferred := st.msg_bytes_xferred + 1 },
         [HwAction.readSR2, HwAction.writeDR (st.msg_bfr st.msg_bytes_xferred)])
      else (st, [])
    | states.STATE_MSTR_WR_SENDING_DATA =>
      if sr1.txe || sr1.btf then
        if st.msg_bytes_xferred < st.msg_len then
          ({ st with msg_bytes_xferred := st.msg_bytes_xferred + 1 },
           [HwAction.writeDR (st.msg_bfr st.msg_bytes_xferred)])
        else if sr1.btf then
          ({ st with state := states.STATE_IDLE,
                     last_op_error := i2c_errors.I2C_ERR_NONE },
           [HwAction.disableAllInterrupts, HwAction.generateStop,
            HwAction.disablePeriph] ++
             (if st.guard_tmr_id ≥ 0 then [HwAction.tmrStart 0] else []))
        else (st, [])
      else (st, [])
    | states.STATE_MSTR_RD_GEN_START =>
      if sr1.sb then
        ({ st with state := states.STATE_MSTR_RD_SENDING_ADDR },
         [HwAction.writeDR (st.dest_addr * 2 + 1)])
      else (st, [])
    | states.STATE_MSTR_RD_SENDING_ADDR =>
      if sr1.addr then
        ({ st with state := states.STATE_MSTR_RD_READING_DATA },
         [HwAction.setAck
            (if st.msg_len = 1 then AckMode.NACK else AckMode.ACK),
          HwAction.readSR2] ++
           (if st.msg_len = 1 then [HwAction.generateStop] else []))
      else (st, [])
    | states.STATE_MSTR_RD_READING_DATA =>
      if sr1.rxne then
        let st1 : i2c_state :=
          { st with msg_bfr := Function.update st.msg_bfr st.msg_bytes_xferred dr,
                    msg_bytes_xferred := st.msg_bytes_xferred + 1 }
        if st1.msg_bytes_xferred ≥ st.msg_len then
          ({ st1 with state := states.STATE_IDLE,
                      last_op_error := i2c_errors.I2C_ERR_NONE },
           [HwAction.readDR, HwAction.disableAllInterrupts] ++
             (if st.msg_len > 1 then [HwAction.generateStop] else []) ++
             [HwAction.disablePeriph] ++
             (if st.guard_tmr_id ≥ 0 then [HwAction.tmrStart 0] else []))
        else if st1.msg_bytes_xferred = st.msg_len - 1 then
          (st1, [HwAction.readDR, HwAction.setAck AckMode.NACK,
                 HwAction.generateStop])
        else (st1, [HwAction.readDR])
      else (st, [])
    | states.STATE_IDLE => (st, [])
  | interrupt_type.INTER_TYPE_ERR =>
    let i2c_error := classify_error sr1
    let r := op_stop_fail st i2c_error
    (r.1, HwAction.clearErrFlags sr1.berr sr1.arlo sr1.af sr1.ovr :: r.2)

/-- `tmr_callback` body for a valid instance: failure cleanup with
`I2C_ERR_GUARD_TMR` only when a transaction is active. -/
def tmr_callback_core (st : i2c_state) : i2c_state × List HwAction :=
  if st.state ≠ states.STATE_IDLE then
    op_stop_fail st i2c_errors.I2C_ERR_GUARD_TMR
  else (st, [])

/-- `tmr_callback`: ignores the firing when `user_data` is not a valid
instance id, otherwise runs the cleanup check on that instance. -/
def tmr_callback (sts : InstArray) (user_data : Nat) :
    InstArray × List HwAction :=
  if h : user_data < I2C_NUM_INSTANCES then
    let r := tmr_callback_core (sts ⟨user_data, h⟩)
    (Function.update sts ⟨user_data, h⟩ r.1, r.2)
  else (sts, [])

/-- Body of `i2c_write` after the instance check (production build:
`ENABLE_FAULT_INJECTION` undefined).  `dest_addr` is truncated to the
`uint16_t` field. -/
def i2c_write_core (st : i2c_state) (dest_addr : Nat) (bfr : Nat → Nat)
    (msg_len : Nat) : Int × i2c_state × List HwAction :=
  if !st.reserved then (MOD_ERR_NOT_RESERVED, st, [])
  else if st.state ≠ states.STATE_IDLE then (MOD_ERR_STATE, st, [])
  else
    (0,
     { st with dest_addr := dest_addr % 65536, msg_bfr := bfr,
               msg_len := msg_len, msg_bytes_xferred := 0,
               last_op_error := i2c_errors.I2C_ERR_NONE,
               state := states.STATE_MSTR_WR_GEN_START },
     [HwAction.enablePeriph, HwAction.generateStart,
      HwAction.enableAllInterrupts] ++
       (if st.guard_tmr_id ≥ 0
        then [HwAction.tmrStart st.cfg_guard_time_ms] else []))

/-- Body of `i2c_read` after the instance check. -/
def i2c_read_core (st : i2c_state) (dest_addr : Nat) (bfr : Nat → Nat)
    (msg_len : Nat) : Int × i2c_state × List HwAction :=
  if !st.reserved then (MOD_ERR_NOT_RESERVED, st, [])
  else if st.state ≠ states.STATE_IDLE then (MOD_ERR_STATE, st, [])
  else
    (0,
     { st with dest_addr := dest_addr % 65536, msg_bfr := bfr,
               msg_len := msg_len, msg_bytes_xferred := 0,
               last_op_error := i2c_errors.I2C_ERR_NONE,
               state := states.STATE_MSTR_RD_GEN_START },
     [HwAction.enablePeriph, HwAction.generateStart,
      HwAction.enableAllInterrupts] ++
       (if st.guard_tmr_id ≥ 0
        then [HwAction.tmrStart st.cfg_guard_time_ms] else []))

/-- `i2c_write`. -/
def i2c_write (sts : InstArray) (instance_id : Nat) (dest_addr : Nat)
    (bfr : Nat → Nat) (msg_len : Nat) : Int × InstArray × List HwAction :=
  if h : instance_id < I2C_NUM_INSTANCES then
    let r := i2c_write_core (sts ⟨instance_id, h⟩) dest_addr bfr msg_len
    (r.1, Function.update sts ⟨instance_id, h⟩ r.2.1, r.2.2)
  else (MOD_ERR_BAD_INSTANCE, sts, [])

/-- `i2c_read`. -/
def i2c_read (sts : InstArray) (instance_id : Nat) (dest_addr : Nat)
    (bfr : Nat → Nat) (msg_len : Nat) : Int × InstArray × List HwAction :=
  if h : instance_id < I2C_NUM_INSTANCES then
    let r := i2c_read_core (sts ⟨instance_id, h⟩) dest_addr bfr msg_len
    (r.1, Function.update sts ⟨instance_id, h⟩ r.2.1, r.2.2)
  else (MOD_ERR_BAD_INSTANCE, sts, [])

/-- `i2c_reserve`. -/
def i2c_reserve (sts : InstArray) (instance_id : Nat) : Int × InstArray :=
  if h : instance_id < I2C_NUM_INSTANCES then
    let st := sts ⟨instance_id, h⟩
    if st.reserved then (MOD_ERR_RESOURCE, sts)
    else (0, Function.update sts ⟨instance_id, h⟩ { st with reserved := true })
  else (MOD_ERR_BAD_INSTANCE, sts)

/-- `i2c_release`. -/
def i2c_release (sts : InstArray) (instance_id : Nat) : Int × InstArray :=
  if h : instance_id < I2C_NUM_INSTANCES then
    let st := sts ⟨instance_id, h⟩
    if !st.reserved then (MOD_ERR_STATE, sts)
    else (0, Function.update sts ⟨instance_id, h⟩ { st with reserved := false })
  else (MOD_ERR_BAD_INSTANCE, sts)

/-- Body of `i2c_get_op_status` after the instance check. -/
def i2c_get_op_status_core (st : i2c_state) : Int :=
  if st.state ≠ states.STATE_IDLE then MOD_ERR_OP_IN_PROG
  else if st.last_op_error = i2c_errors.I2C_ERR_NONE then 0
  else MOD_ERR_PERIPH

/-- `i2c_get_op_status`. -/
def i2c_get_op_status (sts : InstArray) (instance_id : Nat) : Int :=
  if h : instance_id < I2C_NUM_INSTANCES then
    i2c_get_op_status_core (sts ⟨instance_id, h⟩)
  else MOD_ERR_BAD_INSTANCE

/-- `i2c_get_error`. -/
def i2c_get_error (sts : InstArray) (instance_id : Nat) : i2c_errors :=
  if h : instance_id < I2C_NUM_INSTANCES then
    (sts ⟨instance_id, h⟩).last_op_error
  else i2c_errors.I2C_ERR_INVALID_INSTANCE

/-- Per-instance state right after `i2c_init` (memset to zero, then the
configuration stored) and `i2c_start` (guard timer id allocated;
`tmr_inst_get_cb` may in principle return any value). -/
def initState (guard_ms : Nat) (tmr_id : Int) : i2c_state :=
  { cfg_guard_time_ms := guard_ms, guard_tmr_id := tmr_id,
    msg_bfr := fun _ => 0, msg_len := 0, msg_bytes_xferred := 0,
    dest_addr := 0, reserved := false, state := states.STATE_IDLE,
    last_op_error := i2c_errors.I2C_ERR_NONE }

/-- One externally triggered step on a single instance: an API call, a
(possibly simulated, possibly spurious) event or error interrupt, or the
guard-timer callback. -/
inductive Event
  | evReserve
  | evRelease
  | evWrite (dest_addr : Nat) (bfr : Nat → Nat) (msg_len : Nat)
  | evRead (dest_addr : Nat) (bfr : Nat → Nat) (msg_len : Nat)
  | evEvtIntr (sr1 : SR1) (dr : Nat)
  | evErrIntr (sr1 : SR1)
  | evTmr

/-- Effect of one event on the per-instance state (return codes and
hardware actions discarded).  `i2c_reserve`/`i2c_release` only flip the
`reserved` flag on success and change nothing on failure. -/
def stepEv (st : i2c_state) (e : Event) : i2c_state :=
  match e with
  | Event.evReserve =>
    if st.reserved then st else { st with reserved := true }
  | Event.evRelease =>
    if !st.reserved then st else { st with reserved := false }
  | Event.evWrite a b l => (i2c_write_core st a b l).2.1
  | Event.evRead a b l => (i2c_read_core st a b l).2.1
  | Event.evEvtIntr sr1 dr =>
    (i2c_interrupt interrupt_type.INTER_TYPE_EVT sr1 dr st).1
  | Event.evErrIntr sr1 =>
    (i2c_interrupt interrupt_type.INTER_TYPE_ERR sr1 0 st).1
  | Event.evTmr => (tmr_callback_core st).1

/-- States of one instance reachable from initialization under any sequence
of API calls, interrupts and guard-timer callbacks. -/
inductive Reachable : i2c_state → Prop
  | init (guard_ms : Nat) (tmr_id : Int) : Reachable (initState guard_ms tmr_id)
  | step {s : i2c_state} (e : Event) : Reachable s → Reachable (stepEv s e)

/-! Concrete status-register values and traces used to evaluate the
definitions on the scenarios of the specification. -/

/-- An SR1 value with no flag set. -/
def noFlags : SR1 :=
  ⟨false, false, false, false, false, false, false, false, false, false, false⟩

/-- Only the start-bit flag set. -/
def sbF : SR1 := { noFlags with sb := true }

/-- Only the address-acknowledged flag set. -/
def addrF : SR1 := { noFlags with addr := true }

/-- Only the byte-transfer-finished flag set. -/
def btfF : SR1 := { noFlags with btf := true }

/-- Only the receive-buffer-not-empty flag set. -/
def rxneF : SR1 := { noFlags with rxne := true }

/-- Only the acknowledge-failure flag set. -/
def afF : SR1 := { noFlags with af := true }

/-- Only the protocol-timeout flag set. -/
def tmoF : SR1 := { noFlags with timeout := true }

/-- A constant caller buffer holding 0x2C in every byte. -/
def cBuf : Nat → Nat := fun _ => 44

/-- Freshly initialized instance (default 100 ms guard time, timer id 0). -/
def exInit : i2c_state := initState 100 0

/-- After `i2c_reserve`. -/
def exReserved : i2c_state := stepEv exInit Event.evReserve

/-- A started zero-length write (address 0x44). -/
def exW0Start : i2c_state := stepEv exReserved (Event.evWrite 68 cBuf 0)

/-- Zero-length write after the start-bit event. -/
def exW0Addr : i2c_state := stepEv exW0Start (Event.evEvtIntr sbF 0)

/-- Zero-length write after the address-acknowledged event. -/
def exW0Data : i2c_state := stepEv exW0Addr (Event.evEvtIntr addrF 0)

/-- A started two-byte write (address 0x44). -/
def exW2 : i2c_state := stepEv exReserved (Event.evWrite 68 cBuf 2)

/-- The two-byte write aborted by the guard timer. -/
def exTmo : i2c_state := stepEv exW2 Event.evTmr

/-- A started one-byte write. -/
def exW1 : i2c_state := stepEv exReserved (Event.evWrite 68 cBuf 1)

/-- One-byte write after the start-bit event. -/
def exW1a : i2c_state := stepEv exW1 (Event.evEvtIntr sbF 0)

/-- One-byte write after the address-acknowledged event. -/
def exW1b : i2c_state := stepEv exW1a (Event.evEvtIntr addrF 0)

/-- One-byte write completed by the byte-transfer-finished event. -/
def exDone : i2c_state := stepEv exW1b (Event.evEvtIntr btfF 0)

/-- A started one-byte read (address 0x44). -/
def exR1 : i2c_state := stepEv exReserved (Event.evRead 68 cBuf 1)

/-- One-byte read after the start-bit event. -/
def exR1a : i2c_state := stepEv exR1 (Event.evEvtIntr sbF 0)

/-! The invariant relating the sticky error to the idle state. -/

/-- During an active transaction no error has been recorded yet: every
state-and-error write in the driver either sets the two together
(`op_stop_fail`, the successful finishes) or resets the error when leaving
idle (`i2c_write`/`i2c_read`). -/
def InvErr (s : i2c_state) : Prop :=
  s.state ≠ states.STATE_IDLE → s.last_op_error = i2c_errors.I2C_ERR_NONE

lemma invErr_init (guard_ms : Nat) (tmr_id : Int) :
    InvErr (initState guard_ms tmr_id) := by
  intro h
  rfl

lemma invErr_step (s : i2c_state) (e : Event) (h : InvErr s) :
    InvErr (stepEv s e) := by
  obtain ⟨cfg, tid, bfr, len, xf, da, res, stt, err⟩ := s
  cases e with
  | evReserve =>
    cases res <;> simpa [stepEv] using h
  | evRelease =>
    cases res <;> simpa [stepEv] using h
  | evWrite a b l =>
    cases res with
    | false => simpa [stepEv, i2c_write_core] using h
    | true =>
      by_cases hs : stt = states.STATE_IDLE <;>
        simp_all [stepEv, i2c_write_core, InvErr]
  | evRead a b l =>
    cases res with
    | false => simpa [stepEv, i2c_read_core] using h
    | true =>
      by_cases hs : stt = states.STATE_IDLE <;>
        simp_all [stepEv, i2c_read_core, InvErr]
  | evEvtIntr sr1 dr =>
    cases stt <;>
      simp_all [stepEv, i2c_interrupt, InvErr] <;>
      split_ifs <;> simp_all
  | evErrIntr sr1 =>
    simp [stepEv, i2c_interrupt, op_stop_fail, InvErr]
  | evTmr =>
    by_cases hs : stt = states.STATE_IDLE <;>
      simp_all [stepEv, tmr_callback_core, op_stop_fail, InvErr]

lemma reachable_invErr {s : i2c_state} (h : Reachable s) : InvErr s := by
  induction h with
  | init guard_ms tmr_id => exact invErr_init guard_ms tmr_id
  | step e _ ih => exact invErr_step _ e ih

/-- C7: In every reachable state the sticky error being set implies the
machine is back in the terminal idle state. -/
theorem c7_error_implies_idle (s : i2c_state) (h : Reachable s)
    (he : s.last_op_error ≠ i2c_errors.I2C_ERR_NONE) :
    s.state = states.STATE_IDLE := by
  by_contra hs
  exact he (reachable_invErr h hs)

/-- Witness for C7 at the guard-timer-aborted write. -/
theorem c7_witness :
    Reachable exTmo ∧
    exTmo.last_op_error = i2c_errors.I2C_ERR_GUARD_TMR ∧
    exTmo.state = states.STATE_IDLE := by
  have hr : Reachable exTmo :=
    Reachable.step Event.evTmr
      (Reachable.step (Event.evWrite 68 cBuf 2)
        (Reachable.step Event.evReserve (Reachable.init 100 0)))
  exact ⟨hr, rfl, c7_error_implies_idle exTmo hr (by decide)⟩

/-! The invariant bounding the transfer counter. -/

/-- Inductive bound on `msg_bytes_xferred`.  The counter is reset on every
transaction start, untouched in the two start and two address states, and
in the data states pushed at most one beyond a zero length (the
`WriteAddress` handler increments without a length check). -/
def InvXfer (s : i2c_state) : Prop :=
  match s.state with
  | states.STATE_IDLE => s.msg_bytes_xferred ≤ max s.msg_len 1
  | states.STATE_MSTR_WR_GEN_START => s.msg_bytes_xferred = 0
  | states.STATE_MSTR_WR_SENDING_ADDR => s.msg_bytes_xferred = 0
  | states.STATE_MSTR_WR_SENDING_DATA => s.msg_bytes_xferred ≤ max s.msg_len 1
  | states.STATE_MSTR_RD_GEN_START => s.msg_bytes_xferred = 0
  | states.STATE_MSTR_RD_SENDING_ADDR => s.msg_bytes_xferred = 0
  | states.STATE_MSTR_RD_READING_DATA =>
    (s.msg_len = 0 → s.msg_bytes_xferred = 0) ∧
      (1 ≤ s.msg_len → s.msg_bytes_xferred < s.msg_len)

lemma invXfer_le (s : i2c_state) (h : InvXfer s) :
    s.msg_bytes_xferred ≤ max s.msg_len 1 := by
  obtain ⟨cfg, tid, bfr, len, xf, da, res, stt, err⟩ := s
  cases stt <;> simp_all [InvXfer] <;> omega

lemma invXfer_init (guard_ms : Nat) (tmr_id : Int) :
    InvXfer (initState guard_ms tmr_id) := by
  simp [InvXfer, initState]

lemma invXfer_step (s : i2c_state) (e : Event) (h : InvXfer s) :
    InvXfer (stepEv s e) := by
  obtain ⟨cfg, tid, bfr, len, xf, da, res, stt, err⟩ := s
  cases e with
  | evReserve =>
    cases res <;> simpa [stepEv] using h
  | evRelease =>
    cases res <;> simpa [stepEv] using h
  | evWrite a b l =>
    cases res with
    | false => simpa [stepEv, i2c_write_core] using h
    | true =>
      by_cases hs : stt = states.STATE_IDLE <;>
        simp_all [stepEv, i2c_write_core, InvXfer]
  | evRead a b l =>
    cases res with
    | false => simpa [stepEv, i2c_read_core] using h
    | true =>
      by_cases hs : stt = states.STATE_IDLE <;>
        simp_all [stepEv, i2c_read_core, InvXfer]
  | evEvtIntr sr1 dr =>
    cases stt <;>
      simp_all [stepEv, i2c_interrupt, InvXfer] <;>
      split_ifs <;> simp_all <;> omega
  | evErrIntr sr1 =>
    cases stt <;>
      simp_all [stepEv, i2c_interrupt, op_stop_fail, InvXfer] <;> omega
  | evTmr =>
    cases stt <;>
      simp_all [stepEv, tmr_callback_core, op_stop_fail, InvXfer] <;> omega

lemma reachable_invXfer {s : i2c_state} (h : Reachable s) : InvXfer s := by
  induction h with
  | init guard_ms tmr_id => exact invXfer_init guard_ms tmr_id
  | step e _ ih => exact invXfer_step _ e ih

lemma reachable_exW0Data : Reachable exW0Data :=
  Reachable.step (Event.evEvtIntr addrF 0)
    (Reachable.step (Event.evEvtIntr sbF 0)
      (Reachable.step (Event.evWrite 68 cBuf 0)
        (Reachable.step Event.evReserve (Reachable.init 100 0))))

/-- C3 fails as stated: a started zero-length write reaches, after the
start-bit and address-acknowledged events, a reachable state with
`msg_bytes_xferred = 1 > 0 = msg_len` (the `WriteAddress` handler
increments the counter without a length check). -/
theorem c3_counterexample :
    Reachable exW0Data ∧
    exW0Data.msg_len = 0 ∧
    exW0Data.msg_bytes_xferred = 1 ∧
    ¬ exW0Data.msg_bytes_xferred ≤ exW0Data.msg_len :=
  ⟨reachable_exW0Data, rfl, rfl, by decide⟩

/-- C3 amended: in every reachable state
`msg_bytes_xferred ≤ max msg_len 1`; in particular the claimed bound
`msg_bytes_xferred ≤ msg_len` holds whenever `msg_len ≥ 1`, and a
zero-length transaction exceeds it by exactly one. -/
theorem c3_xferred_bound (s : i2c_state) (h : Reachable s) :
    s.msg_bytes_xferred ≤ max s.msg_len 1 ∧
    (1 ≤ s.msg_len → s.msg_bytes_xferred ≤ s.msg_len) := by
  have hb := invXfer_le s (reachable_invXfer h)
  exact ⟨hb, fun hl => by omega⟩

/-- Witness for C3 at the completed zero-length write. -/
theorem c3_witness :
    exW0Data.msg_bytes_xferred ≤ max exW0Data.msg_len 1 :=
  (c3_xferred_bound exW0Data reachable_exW0Data).1

/-! C1: first-error-wins. -/

/-- C1 fails as stated: after the guard timer has recorded
`I2C_ERR_GUARD_TMR` for the two-byte write, a late error interrupt with the
acknowledge-failure flag runs `op_stop_fail` again (the error branch has no
idle check and `op_stop_fail` assigns unconditionally), overwriting the
earlier error with `I2C_ERR_ACK_FAIL`. -/
theorem c1_counterexample :
    Reachable exTmo ∧
    exTmo.last_op_error = i2c_errors.I2C_ERR_GUARD_TMR ∧
    (stepEv exTmo (Event.evErrIntr afF)).last_op_error =
      i2c_errors.I2C_ERR_ACK_FAIL ∧
    (stepEv exTmo (Event.evErrIntr afF)).last_op_error ≠
      exTmo.last_op_error := by
  have hr : Reachable exTmo :=
    Reachable.step Event.evTmr
      (Reachable.step (Event.evWrite 68 cBuf 2)
        (Reachable.step Event.evReserve (Reachable.init 100 0)))
  exact ⟨hr, rfl, rfl, by decide⟩

/-- C1 amended: the error-interrupt cleanup records the classified error
unconditionally; this cannot mask an earlier error while the transaction is
still active, because in every reachable active state (`state ≠ Idle`)
`last_error` is still `None` — but a cleanup delivered after the
transaction has already ended does overwrite an earlier recorded error
(such as a guard timeout). -/
theorem c1_active_cleanup_first_error (s : i2c_state) (sr1 : SR1)
    (h : Reachable s) (hs : s.state ≠ states.STATE_IDLE) :
    s.last_op_error = i2c_errors.I2C_ERR_NONE ∧
    (stepEv s (Event.evErrIntr sr1)).last_op_error = classify_error sr1 :=
  ⟨reachable_invErr h hs, rfl⟩

/-- Witness for C1 at the started two-byte write with the
acknowledge-failure flag. -/
theorem c1_witness :
    exW2.state ≠ states.STATE_IDLE ∧
    exW2.last_op_error = i2c_errors.I2C_ERR_NONE ∧
    (stepEv exW2 (Event.evErrIntr afF)).last_op_error =
      classify_error afF := by
  have hr : Reachable exW2 :=
    Reachable.step (Event.evWrite 68 cBuf 2)
      (Reachable.step Event.evReserve (Reachable.init 100 0))
  have h := c1_active_cleanup_first_error exW2 afF hr (by decide)
  exact ⟨by decide, h.1, h.2⟩

/-! C2: zero-length write at the address-acknowledged event. -/

/-- C2 fails as stated: for the started zero-length write, the
address-acknowledged event in `STATE_MSTR_WR_SENDING_ADDR` transmits the
byte at buffer index 0 (value 0x2C here) and moves to
`STATE_MSTR_WR_SENDING_DATA` instead of finishing successfully — the
handler has no `length == 0` special case. -/
theorem c2_counterexample :
    Reachable exW0Addr ∧
    exW0Addr.msg_len = 0 ∧
    exW0Addr.state = states.STATE_MSTR_WR_SENDING_ADDR ∧
    (i2c_interrupt interrupt_type.INTER_TYPE_EVT addrF 0 exW0Addr).1.state =
      states.STATE_MSTR_WR_SENDING_DATA ∧
    HwAction.writeDR 44 ∈
      (i2c_interrupt interrupt_type.INTER_TYPE_EVT addrF 0 exW0Addr).2 ∧
    (i2c_interrupt interrupt_type.INTER_TYPE_EVT addrF 0
        exW0Addr).1.msg_bytes_xferred = 1 := by
  have hr : Reachable exW0Addr :=
    Reachable.step (Event.evEvtIntr sbF 0)
      (Reachable.step (Event.evWrite 68 cBuf 0)
        (Reachable.step Event.evReserve (Reachable.init 100 0)))
  exact ⟨hr, rfl, rfl, rfl, by decide, rfl⟩

/-- C2 amended: on the address-acknowledged event in
`STATE_MSTR_WR_SENDING_ADDR` the driver always clears the address flag,
transmits the data byte at the current index and moves to
`STATE_MSTR_WR_SENDING_DATA`, for every length including 0; a zero-length
write therefore transmits one byte rather than finishing immediately. -/
theorem c2_write_addr_ack_transmits (s : i2c_state) (sr1 : SR1) (dr : Nat)
    (hs : s.state = states.STATE_MSTR_WR_SENDING_ADDR)
    (ha : sr1.addr = true) :
    (i2c_interrupt interrupt_type.INTER_TYPE_EVT sr1 dr s).1.state =
      states.STATE_MSTR_WR_SENDING_DATA ∧
    (i2c_interrupt interrupt_type.INTER_TYPE_EVT sr1 dr
        s).1.msg_bytes_xferred = s.msg_bytes_xferred + 1 ∧
    (i2c_interrupt interrupt_type.INTER_TYPE_EVT sr1 dr s).2 =
      [HwAction.readSR2, HwAction.writeDR (s.msg_bfr s.msg_bytes_xferred)] := by
  obtain ⟨cfg, tid, bfr, len, xf, da, res, stt, err⟩ := s
  subst hs
  simp [i2c_interrupt, ha]

/-- Witness for C2 at the zero-length write. -/
theorem c2_witness :
    exW0Addr.state = states.STATE_MSTR_WR_SENDING_ADDR ∧
    addrF.addr = true ∧
    (i2c_interrupt interrupt_type.INTER_TYPE_EVT addrF 0 exW0Addr).1.state =
      states.STATE_MSTR_WR_SENDING_DATA := by
  exact ⟨rfl, rfl, (c2_write_addr_ack_transmits exW0Addr addrF 0 rfl rfl).1⟩

/-! C4: behaviour of late deliveries on an already-idle instance. -/

/-- C4 fails as stated: after the completed one-byte write (idle, no
error), a simulated error interrupt with the acknowledge-failure flag is
not a no-op — the error branch of `i2c_interrupt` has no idle check, so it
overwrites `last_op_error` with `I2C_ERR_ACK_FAIL` and re-issues a stop
condition. -/
theorem c4_counterexample :
    Reachable exDone ∧
    exDone.state = states.STATE_IDLE ∧
    exDone.last_op_error = i2c_errors.I2C_ERR_NONE ∧
    (i2c_interrupt interrupt_type.INTER_TYPE_ERR afF 0
        exDone).1.last_op_error = i2c_errors.I2C_ERR_ACK_FAIL ∧
    (i2c_interrupt interrupt_type.INTER_TYPE_ERR afF 0
        exDone).1.last_op_error ≠ exDone.last_op_error ∧
    HwAction.generateStop ∈
      (i2c_interrupt interrupt_type.INTER_TYPE_ERR afF 0 exDone).2 := by
  have hr : Reachable exDone :=
    Reachable.step (Event.evEvtIntr btfF 0)
      (Reachable.step (Event.evEvtIntr addrF 0)
        (Reachable.step (Event.evEvtIntr sbF 0)
          (Reachable.step (Event.evWrite 68 cBuf 1)
            (Reachable.step Event.evReserve (Reachable.init 100 0)))))
  exact ⟨hr, rfl, rfl, rfl, by decide, by decide⟩

/-- C4 amended: for an already-idle instance the guard-timer callback is a
no-op, but a (simulated) error interrupt is not: it overwrites
`last_op_error` with the freshly classified error and re-issues a stop
condition. -/
theorem c4_idle_deliveries (s : i2c_state) (sr1 : SR1)
    (hs : s.state = states.STATE_IDLE) :
    tmr_callback_core s = (s, []) ∧
    (i2c_interrupt interrupt_type.INTER_TYPE_ERR sr1 0
        s).1.last_op_error = classify_error sr1 ∧
    HwAction.generateStop ∈
      (i2c_interrupt interrupt_type.INTER_TYPE_ERR sr1 0 s).2 := by
  refine ⟨by simp [tmr_callback_core, hs], rfl, ?_⟩
  simp [i2c_interrupt, op_stop_fail]

/-- Witness for C4 at the completed one-byte write. -/
theorem c4_witness :
    exDone.state = states.STATE_IDLE ∧
    tmr_callback_core exDone = (exDone, []) := by
  exact ⟨rfl, (c4_idle_deliveries exDone afF rfl).1⟩

/-! C5: error classification and flag clearing. -/

/-- C5 fails as stated: an error interrupt whose status has only the
protocol-timeout flag set is recorded as `I2C_ERR_INTR_UNEXPECT`, not as
the protocol-timeout error of the claimed priority chain
(`classify_error_spec`), and the flag-clearing write clears nothing (the
timeout flag is not in `INTERRUPT_ERR_MASK` on this target). -/
theorem c5_counterexample :
    (i2c_interrupt interrupt_type.INTER_TYPE_ERR tmoF 0
        exW2).1.last_op_error = i2c_errors.I2C_ERR_INTR_UNEXPECT ∧
    classify_error_spec tmoF = i2c_errors.I2C_ERR_TIMEOUT ∧
    classify_error tmoF ≠ classify_error_spec tmoF ∧
    HwAction.clearErrFlags false false false false ∈
      (i2c_interrupt interrupt_type.INTER_TYPE_ERR tmoF 0 exW2).2 :=
  ⟨rfl, rfl, by decide, by decide⟩

/-- C5 amended: every error interrupt records the error classified from
the one status read in the priority order acknowledge-failure > bus-error
> else unexpected-interrupt (the protocol-timeout and packet-error-code
flags are never matched and fall through to unexpected-interrupt), and the
flags cleared are exactly those set among bus-error, arbitration-lost,
acknowledge-failure and overrun. -/
theorem c5_classification (sr1 : SR1) (st : i2c_state) :
    (i2c_interrupt interrupt_type.INTER_TYPE_ERR sr1 0
        st).1.last_op_error =
      (if sr1.af then i2c_errors.I2C_ERR_ACK_FAIL
       else if sr1.berr then i2c_errors.I2C_ERR_BUS_ERR
       else i2c_errors.I2C_ERR_INTR_UNEXPECT) ∧
    HwAction.clearErrFlags sr1.berr sr1.arlo sr1.af sr1.ovr ∈
      (i2c_interrupt interrupt_type.INTER_TYPE_ERR sr1 0 st).2 := by
  refine ⟨rfl, ?_⟩
  simp [i2c_interrupt, op_stop_fail]

/-! C6: rejected calls have no side effects. -/

/-- C6: for a valid instance, `i2c_write` and `i2c_read` reject an
unreserved instance with `MOD_ERR_NOT_RESERVED`, and a reserved but
non-idle instance with `MOD_ERR_STATE`, in both cases returning the state
array unchanged and performing no hardware or timer action (nothing armed,
no interrupts enabled). -/
theorem c6_precondition_no_side_effects (sts : InstArray) (instance_id : Nat)
    (dest_addr : Nat) (bfr : Nat → Nat) (msg_len : Nat)
    (h : instance_id < I2C_NUM_INSTANCES) :
    ((sts ⟨instance_id, h⟩).reserved = false →
      i2c_write sts instance_id dest_addr bfr msg_len =
        (MOD_ERR_NOT_RESERVED, sts, []) ∧
      i2c_read sts instance_id dest_addr bfr msg_len =
        (MOD_ERR_NOT_RESERVED, sts, [])) ∧
    ((sts ⟨instance_id, h⟩).reserved = true →
      (sts ⟨instance_id, h⟩).state ≠ states.STATE_IDLE →
      i2c_write sts instance_id dest_addr bfr msg_len =
        (MOD_ERR_STATE, sts, []) ∧
      i2c_read sts instance_id dest_addr bfr msg_len =
        (MOD_ERR_STATE, sts, [])) := by
  constructor
  · intro hres
    constructor <;>
      simp [i2c_write, i2c_read, i2c_write_core, i2c_read_core, dif_pos h,
            hres, Function.update_eq_self]
  · intro hres hst
    constructor <;>
      simp [i2c_write, i2c_read, i2c_write_core, i2c_read_core, dif_pos h,
            hres, hst, Function.update_eq_self]

/-- The state array holding the freshly initialized instance. -/
def cSts : InstArray := fun _ => exInit

/-- Witness for C6: the fresh instance is unreserved and a write on it is
rejected without side effects. -/
theorem c6_witness :
    0 < I2C_NUM_INSTANCES ∧
    (cSts ⟨0, Nat.one_pos⟩).reserved = false ∧
    i2c_write cSts 0 68 cBuf 2 = (MOD_ERR_NOT_RESERVED, cSts, []) := by
  exact ⟨Nat.one_pos, rfl,
    ((c6_precondition_no_side_effects cSts 0 68 cBuf 2 Nat.one_pos).1 rfl).1⟩

/-! C8: single-byte read scenario. -/

/-- C8: for a started read with length 1, the address-acknowledged event
arms NACK mode, clears the address flag and issues the stop condition
immediately, moving to the data state; the following
receive-buffer-not-empty event stores the byte and finishes successfully
with one byte transferred and no second stop condition. -/
theorem c8_single_byte_read (s : i2c_state) (sr1 sr1a : SR1) (dr dra : Nat)
    (hs : s.state = states.STATE_MSTR_RD_SENDING_ADDR)
    (hl : s.msg_len = 1) (hx : s.msg_bytes_xferred = 0)
    (ha : sr1.addr = true) (hrx : sr1a.rxne = true) :
    (i2c_interrupt interrupt_type.INTER_TYPE_EVT sr1 dr s).2 =
      [HwAction.setAck AckMode.NACK, HwAction.readSR2,
       HwAction.generateStop] ∧
    (i2c_interrupt interrupt_type.INTER_TYPE_EVT sr1 dr s).1.state =
      states.STATE_MSTR_RD_READING_DATA ∧
    (i2c_interrupt interrupt_type.INTER_TYPE_EVT sr1a dra
        (i2c_interrupt interrupt_type.INTER_TYPE_EVT sr1 dr s).1).1.state =
      states.STATE_IDLE ∧
    (i2c_interrupt interrupt_type.INTER_TYPE_EVT sr1a dra
        (i2c_interrupt interrupt_type.INTER_TYPE_EVT sr1 dr
          s).1).1.last_op_error = i2c_errors.I2C_ERR_NONE ∧
    (i2c_interrupt interrupt_type.INTER_TYPE_EVT sr1a dra
        (i2c_interrupt interrupt_type.INTER_TYPE_EVT sr1 dr
          s).1).1.msg_bytes_xferred = 1 ∧
    HwAction.generateStop ∉
      (i2c_interrupt interrupt_type.INTER_TYPE_EVT sr1a dra
        (i2c_interrupt interrupt_type.INTER_TYPE_EVT sr1 dr s).1).2 := by
  obtain ⟨cfg, tid, bfr, len, xf, da, res, stt, err⟩ := s
  simp only at hs hl hx
  subst hs hl hx
  refine ⟨by simp [i2c_interrupt, ha], by simp [i2c_interrupt, ha], ?_⟩
  simp [i2c_interrupt, ha, hrx]

/-- Witness for C8 on the started one-byte read after the start-bit
event. -/
theorem c8_witness :
    exR1a.state = states.STATE_MSTR_RD_SENDING_ADDR ∧
    exR1a.msg_len = 1 ∧
    (i2c_interrupt interrupt_type.INTER_TYPE_EVT rxneF 99
        (i2c_interrupt interrupt_type.INTER_TYPE_EVT addrF 0
          exR1a).1).1.msg_bytes_xferred = 1 := by
  have h := c8_single_byte_read exR1a addrF rxneF 0 99 rfl rfl rfl rfl rfl
  exact ⟨rfl, rfl, h.2.2.2.2.1⟩

/-! C9: unmatched event interrupts are no-ops. -/

/-- The status flag the event branch of `i2c_interrupt` tests in each
state (no flag is expected while idle, where the handler falls through to
the empty default case). -/
def expected_flag (s : states) (sr1 : SR1) : Bool :=
  match s with
  | states.STATE_IDLE => false
  | states.STATE_MSTR_WR_GEN_START => sr1.sb
  | states.STATE_MSTR_WR_SENDING_ADDR => sr1.addr
  | states.STATE_MSTR_WR_SENDING_DATA => sr1.txe || sr1.btf
  | states.STATE_MSTR_RD_GEN_START => sr1.sb
  | states.STATE_MSTR_RD_SENDING_ADDR => sr1.addr
  | states.STATE_MSTR_RD_READING_DATA => sr1.rxne

/-- C9: an event interrupt whose status flags do not include the flag
expected in the current state — including any event interrupt delivered
while idle — leaves the instance completely unchanged and performs no
hardware action. -/
theorem c9_unmatched_event_noop (s : i2c_state) (sr1 : SR1) (dr : Nat)
    (h : expected_flag s.state sr1 = false) :
    i2c_interrupt interrupt_type.INTER_TYPE_EVT sr1 dr s = (s, []) := by
  obtain ⟨cfg, tid, bfr, len, xf, da, res, stt, err⟩ := s
  cases stt <;> simp_all [expected_flag, i2c_interrupt]

/-- Witness for C9: a flagless event interrupt on the freshly initialized
(idle) instance is a no-op. -/
theorem c9_witness :
    expected_flag exInit.state noFlags = false ∧
    i2c_interrupt interrupt_type.INTER_TYPE_EVT noFlags 0 exInit =
      (exInit, []) :=
  ⟨rfl, c9_unmatched_event_noop exInit noFlags 0 rfl⟩

/-! C10: invalid instance ids are rejected up front. -/

/-- C10: every public operation called with an instance id at or above
`I2C_NUM_INSTANCES` is rejected before the per-instance array is read or
written: `i2c_reserve`, `i2c_release`, `i2c_write`, `i2c_read` and
`i2c_get_op_status` return `MOD_ERR_BAD_INSTANCE`, `i2c_get_error` returns
`I2C_ERR_INVALID_INSTANCE`, and the state array is returned unchanged. -/
theorem c10_invalid_instance_rejected (sts : InstArray) (instance_id : Nat)
    (dest_addr : Nat) (bfr : Nat → Nat) (msg_len : Nat)
    (h : I2C_NUM_INSTANCES ≤ instance_id) :
    i2c_reserve sts instance_id = (MOD_ERR_BAD_INSTANCE, sts) ∧
    i2c_release sts instance_id = (MOD_ERR_BAD_INSTANCE, sts) ∧
    i2c_write sts instance_id dest_addr bfr msg_len =
      (MOD_ERR_BAD_INSTANCE, sts, []) ∧
    i2c_read sts instance_id dest_addr bfr msg_len =
      (MOD_ERR_BAD_INSTANCE, sts, []) ∧
    i2c_get_op_status sts instance_id = MOD_ERR_BAD_INSTANCE ∧
    i2c_get_error sts instance_id = i2c_errors.I2C_ERR_INVALID_INSTANCE := by
  have hn : ¬ instance_id < I2C_NUM_INSTANCES := by omega
  refine ⟨?_, ?_, ?_, ?_, ?_, ?_⟩ <;>
    simp [i2c_reserve, i2c_release, i2c_write, i2c_read, i2c_get_op_status,
          i2c_get_error, dif_neg hn]

/-- Witness for C10 at instance id 1 (out of range, since there is a
single instance). -/
theorem c10_witness :
    I2C_NUM_INSTANCES ≤ 1 ∧
    i2c_get_error cSts 1 = i2c_errors.I2C_ERR_INVALID_INSTANCE := by
  exact ⟨Nat.le_refl 1,
    (c10_invalid_instance_rejected cSts 1 68 cBuf 2 (Nat.le_refl 1)).2.2.2.2.2⟩

end I2CDriver
